import Mathlib

/-!
Shallow embedding of the cashier-dashboard notification subsystem:
the per-surface notification store (dashboard panel and header bell),
its mutations (snapshot load, push-event arrival, mark-read,
mark-all-read), and the request client error handling and header
construction.  Each definition mirrors the corresponding function in
the source; JS-specific behaviours (truthiness of strings, object
spread overriding, `Math.max(0, n - 1)` flooring, `Promise.all`
all-or-nothing settling) are embedded explicitly.
-/

/-- A customer-registration notification as held by the stores; only the
fields the store logic inspects are carried (`notification_id` is the
identity key, `customer_id` is `customer_data.id` used by the dashboard
guard). -/
structure Notification where
  notification_id : String
  customer_id : Int
  deriving DecidableEq, Repr

/-- Local state of one surface notification store: the held list
(newest first) and the unread counter.  The counter is an `Int` because
the source manipulates a JS number and floors it at 0 explicitly. -/
structure NotifState where
  notifications : List Notification
  unreadCount : Int
  deriving DecidableEq, Repr

/-- The initial state of either surface: `useState([])`, `useState(0)`. -/
def initialNotifState : NotifState := ⟨[], 0⟩

/-- Capacity used by the dashboard panel: `updated.slice(0, 10)`. -/
def dashboardCapacity : Nat := 10

/-- Capacity used by the notification bell: `updated.slice(0, 20)`. -/
def bellCapacity : Nat := 20

/-- Source `handleNewNotification` (identical in both surfaces up to the
capacity): if a notification with the same `notification_id` is already
present the list is kept, otherwise the new one is prepended and the
list truncated with `slice(0, capacity)`; `setUnreadCount(prev => prev + 1)`
runs unconditionally. -/
def handleNewNotification (capacity : Nat) (data : Notification) (s : NotifState) :
    NotifState :=
  let exists_ := s.notifications.any (fun n => n.notification_id == data.notification_id)
  let notifications :=
    if exists_ then s.notifications
    else (data :: s.notifications).take capacity
  { notifications := notifications, unreadCount := s.unreadCount + 1 }

/-- The payload of `GET /customer-notifications/active` as the loaders
consume it: `data.success` and `data.notifications`, where the list is
`none` when the field is absent/null (a present array is truthy in JS
even when empty). -/
structure SnapshotData where
  success : Bool
  notifications : Option (List Notification)

/-- Source `loadNotifications` in the dashboard: when `data.success &&
data.notifications`, `setNotifications(data.notifications.slice(0, 10))`
and `setUnreadCount(data.notifications.length)`; otherwise no state
change. -/
def dashboardLoadSnapshot (d : SnapshotData) (s : NotifState) : NotifState :=
  match d.notifications with
  | some l => if d.success then ⟨l.take 10, (l.length : Int)⟩ else s
  | none => s

/-- Source `loadNotifications` in the bell: when `data.success &&
data.notifications`, `setNotifications(data.notifications)` (no
truncation) and `setUnreadCount(data.notifications.length)`; otherwise
no state change. -/
def bellLoadSnapshot (d : SnapshotData) (s : NotifState) : NotifState :=
  match d.notifications with
  | some l => if d.success then ⟨l, (l.length : Int)⟩ else s
  | none => s

/-- Local-state effect shared by `handleToastAction` / `handleToastDismiss`
in the bell and the state updates of `handleNotificationAction` in the
dashboard: `setNotifications(prev => prev.filter(n => n.notification_id
!== notificationId))` and `setUnreadCount(prev => Math.max(0, prev - 1))`,
both unconditional. -/
def handleToastAction (notificationId : String) (s : NotifState) : NotifState :=
  { notifications := s.notifications.filter (fun n => n.notification_id != notificationId),
    unreadCount := max 0 (s.unreadCount - 1) }

/-- The socket handler `handleNotificationRead` in the bell performs the
same local removal (filter by id, `Math.max(0, prev - 1)`). -/
def handleNotificationRead (notificationId : String) (s : NotifState) : NotifState :=
  handleToastAction notificationId s

/-- Source `handleNotificationAction` in the dashboard guards first:
`if (!notificationId || !customerId || isNaN(customerId) || customerId <= 0) return;`
(an empty string and a non-positive id are falsy/rejected); past the
guard it performs the same removal and floored decrement. -/
def handleNotificationAction (notificationId : String) (customerId : Int)
    (s : NotifState) : NotifState :=
  if notificationId = "" ∨ customerId ≤ 0 then s
  else handleToastAction notificationId s

/-- The mark-read endpoints hit by `handleMarkAllAsRead`: one request per
currently-held notification (`notifications.map(...)` builds every
promise before awaiting). -/
def markAllReadRequests (s : NotifState) : List String :=
  s.notifications.map
    (fun n => "/customer-notifications/" ++ n.notification_id ++ "/mark-read")

/-- Source `handleMarkAllAsRead` in the bell: all requests are issued, then
`await Promise.all(promises)`; the subsequent `setNotifications([])` and
`setUnreadCount(0)` run only when no promise rejected — a rejection
lands in the `catch`, which only logs, leaving the local state
untouched.  `outcome n = true` means the mark-read request for `n`
fulfilled. -/
def handleMarkAllAsRead (outcome : Notification → Bool) (s : NotifState) : NotifState :=
  if s.notifications.all outcome then ⟨[], 0⟩ else s

/-- One store mutation, for quantifying over call sequences.  Snapshot
loads carry the response payload; mark-all-read carries the per-request
outcomes. -/
inductive StoreOp where
  | snapshot (d : SnapshotData)
  | receive (n : Notification)
  | markRead (id : String)
  | markAllRead (outcome : Notification → Bool)

/-- The two presentation surfaces; they differ in capacity and in
whether the snapshot load truncates. -/
inductive Surface where
  | dashboard
  | bell
  deriving DecidableEq, Repr

def Surface.capacity : Surface → Nat
  | .dashboard => dashboardCapacity
  | .bell => bellCapacity

def Surface.loadSnapshot : Surface → SnapshotData → NotifState → NotifState
  | .dashboard => dashboardLoadSnapshot
  | .bell => bellLoadSnapshot

/-- Apply one operation to a surface store. -/
def applyOp (surf : Surface) (s : NotifState) : StoreOp → NotifState
  | .snapshot d => surf.loadSnapshot d s
  | .receive n => handleNewNotification surf.capacity n s
  | .markRead id => handleToastAction id s
  | .markAllRead outcome => handleMarkAllAsRead outcome s

/-- Run a sequence of operations from the initial state. -/
def runOps (surf : Surface) (ops : List StoreOp) : NotifState :=
  ops.foldl (applyOp surf) initialNotifState

/-- Fold a sequence of push deliveries (receive only) from the initial
state, at a given capacity. -/
def runReceives (capacity : Nat) (ns : List Notification) : NotifState :=
  ns.foldl (fun s n => handleNewNotification capacity n s) initialNotifState

/-! Request client (`api.ts`). -/

/-- A thrown JS `Error`: its `name` and `message` are all the catch
blocks inspect. -/
structure JsError where
  name : String
  message : String
  deriving DecidableEq, Repr

/-- The JSON error body as `handleApiError` reads it: the optional
`error` and `message` string fields. -/
structure ErrorBody where
  error : Option String
  message : Option String
  deriving DecidableEq, Repr

/-- An HTTP response as the helpers consume it: `ok`, `status`,
`statusText`, and the body, `none` when `response.json()` rejects
(body not parseable JSON). -/
structure Response where
  ok : Bool
  status : Nat
  statusText : String
  jsonBody : Option ErrorBody
  deriving DecidableEq, Repr

/-- How the awaited `fetch` resolves inside `apiRequest`: a response, a
thrown `Error` (an abort surfaces as one named `AbortError`), or a
thrown non-`Error` value. -/
inductive FetchOutcome where
  | ok (r : Response)
  | err (e : JsError)
  | nonErrorThrow

/-- The result handling of `apiRequest`: a resolved response is
returned; a caught `Error` named `AbortError` (the abort controller of the
timeout firing) becomes a new `Error` with message `Request timeout`; any
other `Error` is rethrown unchanged; a non-`Error` throw becomes
a new `Error` with message `Network error`. -/
def apiRequest (outcome : FetchOutcome) : Except JsError Response :=
  match outcome with
  | .ok r => .ok r
  | .err e =>
      if e.name == "AbortError" then .error ⟨"Error", "Request timeout"⟩
      else .error e
  | .nonErrorThrow => .error ⟨"Error", "Network error"⟩

/-- JS `a || b` on two optional string fields with a final string
fallback: the first present, non-empty (truthy) value wins. -/
def jsOrField (o : Option String) (fallback : String) : String :=
  match o with
  | some s => if s = "" then fallback else s
  | none => fallback

/-- Source `handleApiError`: starts from the string `An error occurred`, overwrites it
with `errorData.error || errorData.message || errorMessage` when the
body parses, or with `` `HTTP ${status}: ${statusText}` `` when
`response.json()` rejects; throws `new Error(errorMessage)`. -/
def handleApiError (r : Response) : JsError :=
  match r.jsonBody with
  | some d => ⟨"Error", jsOrField d.error (jsOrField d.message "An error occurred")⟩
  | none => ⟨"Error", "HTTP " ++ toString r.status ++ ": " ++ r.statusText⟩

/-- Source `parseApiResponse`: on `!response.ok` it awaits `handleApiError`
(which always throws); otherwise it returns the parsed JSON body. -/
def parseApiResponse (r : Response) : Except JsError (Option ErrorBody) :=
  if r.ok then .ok r.jsonBody else .error (handleApiError r)

/-- A header map as a JS object literal builds it: a list of
assignments, later entries overwriting earlier ones. -/
abbrev Headers := List (String × String)

/-- Lookup in a spread-built object: the last assignment to the key
wins. -/
def headerValue : Headers → String → Option String
  | [], _ => none
  | p :: rest, key =>
      match headerValue rest key with
      | some v => some v
      | none => if p.1 = key then some p.2 else none

/-- The headers `authenticatedApiRequest` builds:
`a Content-Type json entry, then the token entry when truthy, then the caller headers`.  `token` is
`localStorage.getItem(accessToken)` (`none` = null); an empty-string
token is falsy, so it also contributes no `Authorization` entry.
Caller-supplied headers are spread last. -/
def authHeaders (token : Option String) (callerHeaders : Headers) : Headers :=
  [("Content-Type", "application/json")] ++
    (match token with
     | some t => if t = "" then [] else [("Authorization", "Bearer " ++ t)]
     | none => []) ++
    callerHeaders

/-- The request `authenticatedApiRequest` hands to `apiRequest`: the
endpoint unchanged and the merged headers.  The function never consults
the token for control flow — it builds the header object and issues the
request whether or not a token is present. -/
structure IssuedRequest where
  endpoint : String
  headers : Headers
  deriving Repr

def authenticatedApiRequest (token : Option String) (endpoint : String)
    (callerHeaders : Headers) : IssuedRequest :=
  ⟨endpoint, authHeaders token callerHeaders⟩

/-! Example data used by witnesses and counterexamples. -/

/-- A concrete notification with a given numeric id string. -/
def exNotif (i : Nat) : Notification := ⟨"n" ++ toString i, 1⟩

/-- A concrete list of `k` distinct notifications `n0 … n(k-1)`. -/
def exList (k : Nat) : List Notification := (List.range k).map exNotif

/-! Theorems. -/

/-- C1 (amended): a successful snapshot load on the dashboard replaces
the held list with the first 10 items (order preserved) and sets
`unreadCount` to the full reported length; the bell, however, stores the
entire reported list with no truncation (so the claimed capacity-20 cap
does not apply to snapshot loads), likewise setting `unreadCount` to the
full length.  The 15-notification dashboard scenario of the claim holds. -/
theorem loadSnapshot_replaces_list_and_count (l : List Notification) (s : NotifState) :
    dashboardLoadSnapshot ⟨true, some l⟩ s = ⟨l.take dashboardCapacity, (l.length : Int)⟩ ∧
    bellLoadSnapshot ⟨true, some l⟩ s = ⟨l, (l.length : Int)⟩ ∧
    (dashboardLoadSnapshot ⟨true, some (exList 15)⟩ initialNotifState).notifications =
        (exList 15).take 10 ∧
    (dashboardLoadSnapshot ⟨true, some (exList 15)⟩ initialNotifState).unreadCount = 15 := by
  refine ⟨rfl, rfl, rfl, by decide⟩

/-- C1 (counterexample): a successful bell snapshot of 21 notifications
leaves the bell holding all 21, not the first `bellCapacity = 20` items,
refuting the claim that the snapshot load truncates to capacity. -/
theorem bell_snapshot_no_truncation_cex :
    (bellLoadSnapshot ⟨true, some (exList 21)⟩ initialNotifState).notifications ≠
      (exList 21).take bellCapacity := by
  intro h
  have hlen := congrArg List.length h
  simp [bellLoadSnapshot, exList, bellCapacity] at hlen

/-- C2 (amended): `handleMarkAllAsRead` on a store holding K
notifications issues exactly K mark-read requests; when every request
fulfills it clears the list and zeroes the counter, but when any request
rejects, `Promise.all` rejects and the catch block leaves the local
state entirely unchanged — not "regardless of individual outcomes". -/
theorem handleMarkAllAsRead_spec (s : NotifState) (outcome : Notification → Bool) :
    (markAllReadRequests s).length = s.notifications.length ∧
    ((∀ n ∈ s.notifications, outcome n = true) →
      handleMarkAllAsRead outcome s = ⟨[], 0⟩) ∧
    ((∃ n ∈ s.notifications, outcome n = false) →
      handleMarkAllAsRead outcome s = s) := by
  refine ⟨by simp [markAllReadRequests], ?_, ?_⟩
  · intro h
    have hall : s.notifications.all outcome = true := List.all_eq_true.mpr h
    simp [handleMarkAllAsRead, hall]
  · rintro ⟨n, hn, hfalse⟩
    have hall : ¬ s.notifications.all outcome = true := by
      rw [List.all_eq_true]
      intro hall
      have := hall n hn
      rw [hfalse] at this
      exact Bool.false_ne_true this
    simp [handleMarkAllAsRead, hall]

/-- C2 (witness): on a one-element store with a fulfilling request the
list is cleared and the counter zeroed, and exactly one request is
issued. -/
theorem handleMarkAllAsRead_spec_w :
    (markAllReadRequests ⟨[exNotif 0], 1⟩).length = 1 ∧
    handleMarkAllAsRead (fun _ => true) ⟨[exNotif 0], 1⟩ = ⟨[], 0⟩ := by
  have h := handleMarkAllAsRead_spec ⟨[exNotif 0], 1⟩ (fun _ => true)
  exact ⟨h.1, h.2.1 (by intro n _; rfl)⟩

/-- C2 (counterexample): with one held notification whose mark-read
request rejects, the store is not cleared, refuting "clears the list and
sets unreadCount to 0 regardless of whether the individual requests
succeeded or failed". -/
theorem markAllRead_failure_keeps_state_cex :
    handleMarkAllAsRead (fun _ => false) ⟨[exNotif 0], 1⟩ ≠ ⟨[], 0⟩ := by
  decide

/-- Removing by id from a list whose mapped ids contain `id` and are
nodup drops exactly one element. -/
theorem filter_ne_id_length (l : List Notification) (id : String)
    (hnd : (l.map Notification.notification_id).Nodup)
    (hmem : id ∈ l.map Notification.notification_id) :
    (l.filter (fun n => n.notification_id != id)).length + 1 = l.length := by
  induction l with
  | nil => simp at hmem
  | cons n rest ih =>
    rw [List.map_cons, List.nodup_cons] at hnd
    obtain ⟨hnotin, hndrest⟩ := hnd
    by_cases h : n.notification_id = id
    · have hrest : rest.filter (fun m => m.notification_id != id) = rest := by
        apply List.filter_eq_self.mpr
        intro m hm
        have hne : m.notification_id ≠ id := by
          intro he
          exact hnotin (by rw [h, ← he]; exact List.mem_map_of_mem _ hm)
        simpa using hne
      simp [List.filter_cons, h, hrest]
    · have hmem' : id ∈ rest.map Notification.notification_id := by
        rcases List.mem_cons.mp hmem with h1 | h2
        · exact absurd h1.symm h
        · exact h2
      have hrec := ih hndrest hmem'
      simp only [List.filter_cons, List.length_cons]
      rw [if_pos (by simpa using h)]
      simp only [List.length_cons]
      omega

/-- C3 (amended): the mark-read local update always filters the held
list by id and always sets `unreadCount` to `max 0 (unreadCount - 1)`.
On a present id (under the unique-id invariant) exactly one entry is
removed, order preserved; on an absent id the list is unchanged — but
the counter is still decremented (floored at 0) either way, contrary to
the claim that an absent id leaves `unreadCount` unchanged. -/
theorem handleToastAction_spec (s : NotifState) (id : String)
    (hnd : (s.notifications.map Notification.notification_id).Nodup) :
    (handleToastAction id s).unreadCount = max 0 (s.unreadCount - 1) ∧
    (id ∈ s.notifications.map Notification.notification_id →
      (handleToastAction id s).notifications.Sublist s.notifications ∧
      (handleToastAction id s).notifications.length + 1 = s.notifications.length ∧
      ∀ m ∈ (handleToastAction id s).notifications, m.notification_id ≠ id) ∧
    (id ∉ s.notifications.map Notification.notification_id →
      (handleToastAction id s).notifications = s.notifications) := by
  refine ⟨rfl, fun hmem => ⟨List.filter_sublist _, ?_, ?_⟩, fun habs => ?_⟩
  · exact filter_ne_id_length s.notifications id hnd hmem
  · intro m hm
    have := (List.mem_filter.mp hm).2
    simpa using this
  · apply List.filter_eq_self.mpr
    intro m hm
    have hne : m.notification_id ≠ id := by
      intro he
      exact habs (by rw [← he]; exact List.mem_map_of_mem _ hm)
    simpa using hne

/-- C3 (witness): marking the present id `n0` on a one-element store
removes exactly that entry. -/
theorem handleToastAction_spec_w :
    (handleToastAction "n0" ⟨[⟨"n0", 1⟩], 1⟩).notifications.length + 1 = 1 := by
  have h := handleToastAction_spec ⟨[⟨"n0", 1⟩], 1⟩ "n0" (by decide)
  exact (h.2.1 (by decide)).2.1

/-- C3 (counterexample): marking the absent id `n1` on a store holding
only `n0` with `unreadCount = 1` leaves the list unchanged but drops the
counter to 0, refuting "when no notification with that id is present,
both the list and unreadCount are unchanged". -/
theorem markRead_absent_decrements_cex :
    (handleToastAction "n1" ⟨[⟨"n0", 1⟩], 1⟩).unreadCount ≠ (1 : Int) := by
  decide

/-- C4 (confirmed): a push delivery whose id is already held leaves the
notification list (hence the store size) unchanged while still
incrementing `unreadCount` by 1, at any capacity. -/
theorem receive_duplicate_increments_count (capacity : Nat) (n : Notification)
    (s : NotifState)
    (h : n.notification_id ∈ s.notifications.map Notification.notification_id) :
    handleNewNotification capacity n s = ⟨s.notifications, s.unreadCount + 1⟩ := by
  obtain ⟨m, hm, he⟩ := List.mem_map.mp h
  have hex : s.notifications.any
      (fun m => m.notification_id == n.notification_id) = true := by
    rw [List.any_eq_true]
    exact ⟨m, hm, by simp [he]⟩
  simp [handleNewNotification, hex]

/-- C4 (witness): receiving the already-held notification `n0` into a
one-element store keeps the list and bumps the counter from 1 to 2. -/
theorem receive_duplicate_increments_count_w :
    handleNewNotification 10 (exNotif 0) ⟨[exNotif 0], 1⟩ = ⟨[exNotif 0], 2⟩ := by
  have h := receive_duplicate_increments_count 10 (exNotif 0) ⟨[exNotif 0], 1⟩
    (by decide)
  simpa using h

/-- Receiving a sequence of distinct notifications from the empty store
leaves exactly the last `capacity` of them, newest first. -/
theorem runReceives_eq (capacity : Nat) (ns : List Notification)
    (hnd : (ns.map Notification.notification_id).Nodup) :
    (runReceives capacity ns).notifications = ns.reverse.take capacity := by
  induction ns using List.reverseRecOn with
  | nil => simp [runReceives, initialNotifState]
  | append_singleton l a ih =>
      rw [List.map_append, List.nodup_append] at hnd
      obtain ⟨hl, -, hdisj⟩ := hnd
      have hnotin : a.notification_id ∉ l.map Notification.notification_id := by
        intro hmem
        exact hdisj hmem (by simp)
      have hstep : runReceives capacity (l ++ [a]) =
          handleNewNotification capacity a (runReceives capacity l) := by
        simp [runReceives, List.foldl_append]
      have hprev := ih hl
      have hany : ((l.reverse.take capacity).any
          (fun m => m.notification_id == a.notification_id)) = false := by
        apply List.any_eq_false.mpr
        intro m hm
        have hml : m ∈ l := List.mem_reverse.mp (List.take_subset _ _ hm)
        simp only [beq_iff_eq]
        intro he
        exact hnotin (List.mem_map.mpr ⟨m, hml, he⟩)
      rw [hstep]
      simp only [handleNewNotification, hprev, hany, Bool.false_eq_true, if_false]
      rw [List.reverse_append, List.reverse_singleton, List.singleton_append]
      cases capacity with
      | zero => simp
      | succ k =>
          rw [List.take_succ_cons, List.take_succ_cons, List.take_take,
            Nat.min_eq_left (Nat.le_succ k)]

/-- C8 (confirmed): when the fetch inside `apiRequest` is aborted by the
timeout controller (an `Error` named `AbortError`, whatever its
message), the call fails with the dedicated `Request timeout` error,
which differs from the generic `Network error` failure produced for
non-`Error` throws. -/
theorem apiRequest_timeout_distinct (msg : String) :
    apiRequest (.err ⟨"AbortError", msg⟩) = .error ⟨"Error", "Request timeout"⟩ ∧
    apiRequest .nonErrorThrow = .error ⟨"Error", "Network error"⟩ ∧
    apiRequest (.err ⟨"AbortError", msg⟩) ≠ apiRequest .nonErrorThrow := by
  refine ⟨rfl, rfl, fun h => ?_⟩
  have h2 : (Except.error ⟨"Error", "Request timeout"⟩ : Except JsError Response) =
      Except.error ⟨"Error", "Network error"⟩ := h
  simp at h2

/-- C9 (confirmed): on a non-success response, the thrown error carries
the message from the body `error` field when that field is present and
non-empty, else from the `message` field when that one is, and the
`HTTP <status>: <statusText>` fallback when the body is not parseable
JSON; `parseApiResponse` raises exactly that error on `!ok`.  The 404
scenario with body error `not found` yields message `not found`. -/
theorem handleApiError_message_spec (r : Response) :
    (∀ d e, r.jsonBody = some d → d.error = some e → e ≠ "" →
      (handleApiError r).message = e) ∧
    (∀ d m, r.jsonBody = some d → (d.error = none ∨ d.error = some "") →
      d.message = some m → m ≠ "" → (handleApiError r).message = m) ∧
    (r.jsonBody = none →
      (handleApiError r).message = "HTTP " ++ toString r.status ++ ": " ++ r.statusText) ∧
    (r.ok = false → parseApiResponse r = .error (handleApiError r)) ∧
    parseApiResponse ⟨false, 404, "Not Found", some ⟨some "not found", none⟩⟩ =
      .error ⟨"Error", "not found"⟩ := by
  refine ⟨?_, ?_, ?_, ?_, rfl⟩
  · intro d e hbody herr hne
    simp [handleApiError, hbody, jsOrField, herr, hne]
  · intro d m hbody herr hmsg hne
    rcases herr with h | h <;>
      simp [handleApiError, hbody, jsOrField, h, hmsg, hne]
  · intro hbody
    simp [handleApiError, hbody]
  · intro hok
    simp [parseApiResponse, hok]

/-- C9 (witness): the concrete 404 response with body error `not found`
produces that exact message. -/
theorem handleApiError_message_spec_w :
    (handleApiError ⟨false, 404, "Not Found", some ⟨some "not found", none⟩⟩).message =
      "not found" := by
  have h := handleApiError_message_spec
    ⟨false, 404, "Not Found", some ⟨some "not found", none⟩⟩
  exact h.1 ⟨some "not found", none⟩ "not found" rfl rfl (by decide)

/-- Lookup over an append: the later block (spread last) wins. -/
theorem headerValue_append (a b : Headers) (k : String) :
    headerValue (a ++ b) k =
      match headerValue b k with
      | some v => some v
      | none => headerValue a k := by
  induction a with
  | nil =>
      simp only [List.nil_append]
      cases headerValue b k <;> simp [headerValue]
  | cons p rest ih =>
      simp only [List.cons_append, List.append_eq, headerValue]
      rw [ih]
      cases hb : headerValue b k <;> cases hr : headerValue rest k <;> simp [hb, hr]

/-- C10 (confirmed): `authenticatedApiRequest` always issues the request
for the given endpoint; with no stored token (and no caller-supplied
override) the merged headers carry no `Authorization` entry at all while
still carrying `Content-Type: application/json`; with a non-empty token
the `Authorization: Bearer <token>` entry is attached; and any
caller-supplied header overrides the defaults on key conflict. -/
theorem authenticatedApiRequest_headers (token : Option String) (endpoint : String)
    (ch : Headers) :
    (authenticatedApiRequest token endpoint ch).endpoint = endpoint ∧
    (token = none → headerValue ch "Authorization" = none →
      headerValue (authenticatedApiRequest token endpoint ch).headers "Authorization" =
        none) ∧
    (headerValue ch "Content-Type" = none →
      headerValue (authenticatedApiRequest token endpoint ch).headers "Content-Type" =
        some "application/json") ∧
    (∀ t, token = some t → t ≠ "" → headerValue ch "Authorization" = none →
      headerValue (authenticatedApiRequest token endpoint ch).headers "Authorization" =
        some ("Bearer " ++ t)) ∧
    (∀ k v, headerValue ch k = some v →
      headerValue (authenticatedApiRequest token endpoint ch).headers k = some v) := by
  refine ⟨rfl, ?_, ?_, ?_, ?_⟩
  · intro htok hch
    subst htok
    simp [authenticatedApiRequest, authHeaders, headerValue_append, hch, headerValue]
  · intro hch
    rcases token with _ | t
    · simp [authenticatedApiRequest, authHeaders, headerValue_append, hch, headerValue]
    · by_cases ht : t = "" <;>
        simp [authenticatedApiRequest, authHeaders, headerValue_append, hch, headerValue,
          ht]
  · intro t htok hne hch
    subst htok
    simp [authenticatedApiRequest, authHeaders, headerValue_append, hch, headerValue, hne]
  · intro k v hch
    rcases token with _ | t
    · simp [authenticatedApiRequest, authHeaders, headerValue_append, hch, headerValue]
    · by_cases ht : t = "" <;>
        simp [authenticatedApiRequest, authHeaders, headerValue_append, hch, ht,
          headerValue]

/-- C10 (witness): with no token and no caller headers the issued
request has no `Authorization` header but does carry the JSON
content-type; with token `tok` the bearer header appears; a caller
override wins. -/
theorem authenticatedApiRequest_headers_w :
    headerValue (authenticatedApiRequest none "/x" []).headers "Authorization" = none ∧
    headerValue (authenticatedApiRequest none "/x" []).headers "Content-Type" =
      some "application/json" ∧
    headerValue (authenticatedApiRequest (some "tok") "/x" []).headers "Authorization" =
      some ("Bearer " ++ "tok") ∧
    headerValue
        (authenticatedApiRequest (some "tok") "/x"
          [("Content-Type", "text/plain")]).headers "Content-Type" =
      some "text/plain" := by
  refine ⟨(authenticatedApiRequest_headers none "/x" []).2.1 rfl rfl,
    (authenticatedApiRequest_headers none "/x" []).2.2.1 rfl,
    (authenticatedApiRequest_headers (some "tok") "/x" []).2.2.2.1 "tok" rfl
      (by decide) rfl,
    (authenticatedApiRequest_headers (some "tok") "/x"
      [("Content-Type", "text/plain")]).2.2.2.2 "Content-Type" "text/plain" rfl⟩

/-- When the incoming id is already held, `handleNewNotification` keeps
the list. -/
theorem handleNewNotification_list_of_any_true (capacity : Nat) (n : Notification)
    (s : NotifState)
    (h : (s.notifications.any (fun m => m.notification_id == n.notification_id)) = true) :
    (handleNewNotification capacity n s).notifications = s.notifications := by
  simp only [handleNewNotification, h, if_true]

/-- When the incoming id is not held, `handleNewNotification` prepends
and truncates. -/
theorem handleNewNotification_list_of_any_false (capacity : Nat) (n : Notification)
    (s : NotifState)
    (h : (s.notifications.any (fun m => m.notification_id == n.notification_id)) = false) :
    (handleNewNotification capacity n s).notifications =
      (n :: s.notifications).take capacity := by
  simp only [handleNewNotification, h, Bool.false_eq_true, if_false]

/-- C5 (confirmed): after receiving a sequence of distinct notifications
(one push each, in order) the store holds exactly the last `capacity`
received, newest first (the reverse of the delivery order, truncated),
and when at least `capacity` were delivered the store holds exactly
`capacity` of them — the oldest having been evicted first. -/
theorem receive_sequence_keeps_most_recent (capacity : Nat) (ns : List Notification)
    (hnd : (ns.map Notification.notification_id).Nodup) :
    (runReceives capacity ns).notifications = ns.reverse.take capacity ∧
    (capacity ≤ ns.length → (runReceives capacity ns).notifications.length = capacity) := by
  have h := runReceives_eq capacity ns hnd
  refine ⟨h, fun hc => ?_⟩
  rw [h, List.length_take, List.length_reverse]
  omega

/-- C5 (witness): delivering the 11 distinct notifications `n0 … n10` at
capacity 10 leaves exactly 10 held, newest first. -/
theorem receive_sequence_keeps_most_recent_w :
    (runReceives 10 (exList 11)).notifications = (exList 11).reverse.take 10 ∧
    (runReceives 10 (exList 11)).notifications.length = 10 := by
  have h := receive_sequence_keeps_most_recent 10 (exList 11) (by decide)
  exact ⟨h.1, h.2 (by decide)⟩

/-- C6 (confirmed): under the unique-id store invariant and a positive
capacity, receiving the same notification twice leaves exactly one copy
of its id in the store, and the second delivery does not change the list
at all (idempotent insert keyed by id). -/
theorem receive_twice_one_copy (capacity : Nat) (n : Notification) (s : NotifState)
    (hc : 0 < capacity)
    (hnd : (s.notifications.map Notification.notification_id).Nodup) :
    ((handleNewNotification capacity n
          (handleNewNotification capacity n s)).notifications.map
        Notification.notification_id).count n.notification_id = 1 ∧
    (handleNewNotification capacity n
        (handleNewNotification capacity n s)).notifications =
      (handleNewNotification capacity n s).notifications := by
  obtain ⟨k, rfl⟩ : ∃ k, capacity = k + 1 := ⟨capacity - 1, by omega⟩
  by_cases hex : s.notifications.any
      (fun m => m.notification_id == n.notification_id) = true
  · have h1 := handleNewNotification_list_of_any_true (k + 1) n s hex
    have h2 := handleNewNotification_list_of_any_true (k + 1) n
      (handleNewNotification (k + 1) n s) (by rw [h1]; exact hex)
    rw [h1] at h2
    obtain ⟨m, hm, hbeq⟩ := List.any_eq_true.mp hex
    have hmem : n.notification_id ∈ s.notifications.map Notification.notification_id :=
      List.mem_map.mpr ⟨m, hm, by simpa using hbeq⟩
    refine ⟨?_, by rw [h1, h2]⟩
    rw [h2]
    exact List.count_eq_one_of_mem hnd hmem
  · have hex' : s.notifications.any
        (fun m => m.notification_id == n.notification_id) = false :=
      Bool.eq_false_iff.mpr hex
    have hnotin : n.notification_id ∉
        s.notifications.map Notification.notification_id := by
      intro hmem
      obtain ⟨m, hm, he⟩ := List.mem_map.mp hmem
      have := List.any_eq_false.mp hex' m hm
      simp [he] at this
    have h1 : (handleNewNotification (k + 1) n s).notifications =
        n :: s.notifications.take k := by
      rw [handleNewNotification_list_of_any_false (k + 1) n s hex',
        List.take_succ_cons]
    have hhead : ((n :: s.notifications.take k).any
        (fun m => m.notification_id == n.notification_id)) = true := by
      simp [List.any_cons]
    have h2 : (handleNewNotification (k + 1) n
        (handleNewNotification (k + 1) n s)).notifications =
        n :: s.notifications.take k := by
      rw [handleNewNotification_list_of_any_true (k + 1) n
        (handleNewNotification (k + 1) n s) (by rw [h1]; exact hhead), h1]
    refine ⟨?_, by rw [h1, h2]⟩
    rw [h2]
    have hz : ((s.notifications.map Notification.notification_id).take k).count
        n.notification_id = 0 := by
      have hsub : List.Sublist
          ((s.notifications.map Notification.notification_id).take k)
          (s.notifications.map Notification.notification_id) :=
        List.take_sublist _ _
      have hzero : (s.notifications.map Notification.notification_id).count
          n.notification_id = 0 := List.count_eq_zero.mpr hnotin
      have hle := hsub.count_le n.notification_id
      omega
    simp [List.map_cons, List.count_cons_self, hz]

/-- C6 (witness): receiving `n0` twice into the empty store at capacity
10 leaves exactly one copy of its id. -/
theorem receive_twice_one_copy_w :
    ((handleNewNotification 10 (exNotif 0)
          (handleNewNotification 10 (exNotif 0) initialNotifState)).notifications.map
        Notification.notification_id).count (exNotif 0).notification_id = 1 := by
  have h := receive_twice_one_copy 10 (exNotif 0) initialNotifState (by decide) (by decide)
  exact h.1

/-- Every single store operation preserves a non-negative unread
counter: snapshot loads set it to a list length, receives add 1,
mark-read floors at 0, mark-all-read zeroes or leaves it. -/
theorem applyOp_unreadCount_nonneg (surf : Surface) (s : NotifState) (op : StoreOp)
    (hs : 0 ≤ s.unreadCount) : 0 ≤ (applyOp surf s op).unreadCount := by
  cases op with
  | snapshot d =>
      rcases d with ⟨succ, _ | l⟩ <;> cases surf <;> cases succ <;>
        simp [applyOp, Surface.loadSnapshot, dashboardLoadSnapshot, bellLoadSnapshot,
          hs, Int.natCast_nonneg]
  | receive n =>
      simp only [applyOp, handleNewNotification]
      omega
  | markRead id =>
      simp only [applyOp, handleToastAction]
      exact le_max_left 0 _
  | markAllRead outcome =>
      simp only [applyOp, handleMarkAllAsRead]
      split
      · simp
      · exact hs

/-- C7 (confirmed): starting from the initial state, `unreadCount` is
non-negative after every sequence of store operations on either surface
— in particular more mark-reads than receives never drive it below 0. -/
theorem unreadCount_nonneg (surf : Surface) (ops : List StoreOp) :
    0 ≤ (runOps surf ops).unreadCount := by
  suffices h : ∀ s : NotifState, 0 ≤ s.unreadCount →
      0 ≤ (ops.foldl (applyOp surf) s).unreadCount by
    exact h initialNotifState (by simp [initialNotifState])
  induction ops with
  | nil => intro s hs; simpa using hs
  | cons op rest ih =>
      intro s hs
      simp only [List.foldl_cons]
      exact ih _ (applyOp_unreadCount_nonneg surf s op hs)
